import Mathlib

/-
Verification of the network-interface provisioning script (tools/ips.py) and the
account polling utility (tools/account_info.py).

The shallow embedding below models:
  - decimal rendering of naturals (Python str(int)) with a fixed fuel of 10
    digits, enough for every value that occurs (all values are below 2^32);
  - the hardware-address generator generate_hwaddr, whose three random octets
    (random.randint(0, 255)) are supplied as Fin 256 values;
  - the four host commands built by generate_dev and the shell evaluation of
    the command string joined with the and-and operator: commands run left to
    right, stopping at the first nonzero exit status, whose status becomes the
    status of the whole invocation.  The host is modelled as a function from
    the elementary command string to its exit status (the spec treats host
    commands as a black box with contract command string in, exit status out);
  - the standard-library IPv4Network constructor (dotted quad, optional slash
    and decimal prefix length, strict network: host bits must be zero), which
    the script calls to enumerate addresses;
  - the main body of ips.py as a pure function of the CLI arguments, the
    platform string, the host oracle, the randomness stream and the prior
    contents of the output file: it returns the printed lines, the per-address
    attempts (each carrying the commands actually executed), the resulting
    file contents and the process exit status.  As in the source, the subnet
    is parsed and expanded before the platform guard runs.
  - get_account_info and the polling loop of account_info.py, with the outcome
    of each RPC request supplied by an oracle: a request either returns a
    response (success or non-success status), raises a connection error
    (caught by the script), or raises some other exception (not caught).
-/

/-- Decimal digits of n, most significant first, with explicit fuel.
Mirrors Python str(int) for every n below 10 to the power of the fuel. -/
def natDecAux : Nat → Nat → List Char
  | 0, _ => []
  | fuel + 1, n =>
    if n < 10 then [Char.ofNat (48 + n)]
    else natDecAux fuel (n / 10) ++ [Char.ofNat (48 + n % 10)]

/-- Decimal rendering of a natural number, as Python str(int).
Fuel 10 covers every value below 10^10; all values in this development are
below 2^32. -/
def natDec (n : Nat) : String :=
  String.mk (natDecAux 10 n)

/-- Value of a list of decimal digit characters (base 10, most significant
first). -/
def digitsVal (cs : List Char) : Nat :=
  cs.foldl (fun a c => a * 10 + (c.toNat - 48)) 0

/-- One lowercase hexadecimal digit, as produced by the %x format. -/
def hexDigitChar (n : Nat) : Char :=
  if n < 10 then Char.ofNat (48 + n) else Char.ofNat (87 + n)

/-- Two-digit lowercase hexadecimal rendering of an octet, as produced by the
%02x format for values 0..255. -/
def hex2 (n : Nat) : String :=
  String.mk [hexDigitChar (n / 16 % 16), hexDigitChar (n % 16)]

/-- generate_hwaddr from ips.py: formats the pattern 02:00:00:%02x:%02x:%02x with three
values drawn by random.randint(0, 255), supplied here as Fin 256. -/
def generate_hwaddr (r1 r2 r3 : Fin 256) : String :=
  ("02:00:00:") ++ hex2 r1.val ++ (":") ++ hex2 r2.val ++ (":") ++ hex2 r3.val

/-- First of the four chained host commands in generate_dev. -/
def ipLinkAddCmd (device_name : String) : String :=
  ("ip link add ") ++ device_name ++ (" type dummy")

/-- Second of the four chained host commands in generate_dev. -/
def ifconfigHwCmd (device_name hw : String) : String :=
  ("ifconfig ") ++ device_name ++ (" hw ether ") ++ hw

/-- Third of the four chained host commands in generate_dev. -/
def ipAddrAddCmd (ip_addr device_name : String) : String :=
  ("ip addr add ") ++ ip_addr ++ (" dev ") ++ device_name

/-- Fourth of the four chained host commands in generate_dev. -/
def ipLinkUpCmd (device_name : String) : String :=
  ("ip link set ") ++ device_name ++ (" up")

/-- The four commands of one generate_dev invocation, in source order. -/
def devChain (device_name ip_addr hw : String) : List String :=
  [ipLinkAddCmd device_name, ifconfigHwCmd device_name hw,
   ipAddrAddCmd ip_addr device_name, ipLinkUpCmd device_name]

/-- Shell evaluation of a command chain joined with the and-and operator, as
executed by os.system: commands run left to right, stopping at the first
nonzero exit status; the overall status is that of the last command run.
Returns the list of commands actually executed and the overall status. -/
def runChain (hostCmd : String → Int) : List String → List String × Int
  | [] => ([], 0)
  | c :: rest =>
    if hostCmd c = 0 then
      ((c :: (runChain hostCmd rest).1), (runChain hostCmd rest).2)
    else ([c], hostCmd c)

/-- generate_dev from ips.py: builds the four-command chain for the device and
address and hands it to the shell; yields the executed commands and the exit
status os.system reports. -/
def generate_dev (hostCmd : String → Int) (device_name ip_addr hw : String) :
    List String × Int :=
  runChain hostCmd (devChain device_name ip_addr hw)

/-- Split a list of characters on a separator, as Python str.split with an
explicit separator: n separators yield n plus one fields, possibly empty. -/
def splitOnChar (sep : Char) : List Char → List (List Char)
  | [] => [[]]
  | x :: xs =>
    if x = sep then [] :: splitOnChar sep xs
    else
      match splitOnChar sep xs with
      | [] => [[x]]
      | y :: ys => (x :: y) :: ys

/-- One dotted-quad octet, as parsed by the ipaddress module: nonempty, all
decimal digits, no leading zero, value at most 255. -/
def parseOctet (cs : List Char) : Except String Nat :=
  if cs.isEmpty then Except.error ("empty octet not permitted")
  else if !(cs.all Char.isDigit) then Except.error ("octet contains a non-decimal digit")
  else if decide (1 < cs.length) && (cs.headD ' ' == '0') then
    Except.error ("octet has a leading zero")
  else if digitsVal cs ≤ 255 then Except.ok (digitsVal cs)
  else Except.error ("octet exceeds 255")

/-- A dotted-quad IPv4 address as a number below 2^32, as parsed by the
ipaddress module: exactly four octets separated by dots. -/
def parseIPv4Address (cs : List Char) : Except String Nat :=
  match splitOnChar '.' cs with
  | [a, b, c, d] => do
    let va ← parseOctet a
    let vb ← parseOctet b
    let vc ← parseOctet c
    let vd ← parseOctet d
    Except.ok (va * 16777216 + vb * 65536 + vc * 256 + vd)
  | _ => Except.error ("expected 4 octets")

/-- The prefix length after the slash, as parsed by the ipaddress module.
A nonempty string of decimal digits is a prefix length and must be at most
32.  Anything else is parsed as a dotted-quad value: if its bit pattern is
ones followed by zeroes it is a netmask whose prefix length is the number of
leading ones (the all-ones and all-zeroes patterns count as netmasks); if
instead its complement has that shape it is a hostmask; any other pattern is
rejected.  For each prefix length l the netmask value is 2^32 - 2^(32-l) and
the hostmask value is 2^(32-l) - 1, so the pattern checks are searches over
the thirty-three possible prefix lengths. -/
def parsePrefixLen (cs : List Char) : Except String Nat :=
  if !cs.isEmpty && cs.all Char.isDigit then
    if digitsVal cs ≤ 32 then Except.ok (digitsVal cs)
    else Except.error ("netmask length exceeds 32")
  else
    match parseIPv4Address cs with
    | Except.error _ => Except.error ("bad netmask")
    | Except.ok v =>
      match (List.range 33).find? (fun l => v == 4294967296 - 2 ^ (32 - l)) with
      | some l => Except.ok l
      | none =>
        match (List.range 33).find? (fun l => v == 2 ^ (32 - l) - 1) with
        | some l => Except.ok l
        | none => Except.error ("netmask pattern mixes zeroes and ones")

/-- An IPv4 network: network address (a number below 2^32 with the host bits
zero) and prefix length. -/
structure IPv4Network where
  networkAddress : Nat
  prefixlen : Nat
  deriving DecidableEq

instance {α β : Type} [DecidableEq α] [DecidableEq β] : DecidableEq (Except α β) :=
  fun a b =>
    match a, b with
    | Except.error x, Except.error y =>
      if h : x = y then isTrue (by subst h; rfl)
      else isFalse (fun hc => h (by injection hc))
    | Except.error _, Except.ok _ => isFalse (fun hc => Except.noConfusion hc)
    | Except.ok _, Except.error _ => isFalse (fun hc => Except.noConfusion hc)
    | Except.ok x, Except.ok y =>
      if h : x = y then isTrue (by subst h; rfl)
      else isFalse (fun hc => h (by injection hc))

/-- The IPv4Network constructor of the ipaddress module as called by ips.py:
a dotted quad with an optional slash and decimal prefix length (no slash means
a /32), strict by default, so a network with host bits set is rejected. -/
def parseIPv4Network (s : String) : Except String IPv4Network :=
  match splitOnChar '/' s.data with
  | [a] => (parseIPv4Address a).map (fun v => IPv4Network.mk v 32)
  | [a, p] => do
    let v ← parseIPv4Address a
    let l ← parsePrefixLen p
    if v % 2 ^ (32 - l) = 0 then Except.ok (IPv4Network.mk v l)
    else Except.error ("network has host bits set")
  | _ => Except.error ("only one slash permitted")

/-- Iterating an IPv4Network yields every address of the network, network and
broadcast included, in ascending numeric order. -/
def IPv4Network.addresses (net : IPv4Network) : List Nat :=
  (List.range (2 ^ (32 - net.prefixlen))).map (fun k => net.networkAddress + k)

/-- str of an IPv4Address: the dotted quad of its four octets. -/
def ipToString (n : Nat) : String :=
  natDec (n / 16777216 % 256) ++ (".") ++ natDec (n / 65536 % 256) ++ (".")
    ++ natDec (n / 256 % 256) ++ (".") ++ natDec (n % 256)

/-- Whether the first list is an initial segment of the second, as Python
str.startswith on the underlying characters. -/
def startsWithList : List Char → List Char → Bool
  | [], _ => true
  | _ :: _, [] => false
  | p :: ps, c :: cs => p == c && startsWithList ps cs

/-- The platform guard of ips.py: sys.platform.startswith applied to the literal linux. -/
def platformStartsLinux (platform : String) : Bool :=
  startsWithList ("linux").data platform.data

/-- One line of the output artifact: the address quoted and comma-terminated,
exactly as written by ips.py. -/
def quoteLine (ip : String) : String :=
  ("\t\"") ++ ip ++ ("\",\n")

/-- The opening constant-declaration header line written by ips.py. -/
def ipsHeader : String :=
  ("pub const IPS: &\x27static [&\x27static str] = &[ \n")

/-- The closing terminator line and trailing blank line written by ips.py. -/
def ipsFooter : String :=
  ("];\n\n")

/-- One provisioning attempt: the device name and hardware address generated
for it, the candidate address, the host commands actually executed, and the
exit status reported by generate_dev. -/
structure Attempt where
  device : String
  address : String
  hwaddr : String
  executed : List String
  status : Int

/-- The hardware address generated for the attempt with index i: the i-th
generate_hwaddr call consumes the next three values of the randomness
stream. -/
def hwAt (rng : Nat → Fin 256) (i : Nat) : String :=
  generate_hwaddr (rng (3 * i)) (rng (3 * i + 1)) (rng (3 * i + 2))

/-- One iteration of the provisioning loop of ips.py: the device name is the
prefix followed by the decimal rendering of the index, the hardware address
comes from the randomness stream, and generate_dev is invoked once. -/
def mkAttempt (hostCmd : String → Int) (rng : Nat → Fin 256) (dev : String)
    (i : Nat) (ip : String) : Attempt :=
  Attempt.mk (dev ++ natDec i) ip (hwAt rng i)
    (generate_dev hostCmd (dev ++ natDec i) ip (hwAt rng i)).1
    (generate_dev hostCmd (dev ++ natDec i) ip (hwAt rng i)).2

/-- The provisioning loop of ips.py over the enumerated addresses: one attempt
per address, with the index incremented on every iteration. -/
def ipsLoop (hostCmd : String → Int) (rng : Nat → Fin 256) (dev : String) :
    List String → Nat → List Attempt
  | [], _ => []
  | ip :: rest, i => mkAttempt hostCmd rng dev i ip :: ipsLoop hostCmd rng dev rest (i + 1)

/-- Concatenation of a list of strings, in order. -/
def concatStrings : List String → String
  | [] => ("")
  | s :: rest => s ++ concatStrings rest

/-- The lines written between header and footer: for each attempt, the quoted
comma-terminated address when its status is zero, nothing otherwise. -/
def fileBody : List Attempt → String
  | [] => ("")
  | a :: rest => (if a.status == 0 then quoteLine a.address else ("")) ++ fileBody rest

/-- Everything observable about one run of ips.py: the lines printed, the
provisioning attempts performed (empty when no host command ran), the contents
of the output file after the run, and the process exit status. -/
structure IpsResult where
  printed : List String
  err : Option String
  attempts : List Attempt
  file : Option String
  exitCode : Nat

/-- The body of ips.py as a function of the CLI arguments, the platform
string, the host command oracle, the randomness stream, and the prior
contents of the output file.  As in the source, the subnet is parsed and
expanded first: a malformed subnet raises ValueError (uncaught, so the
process exits with status 1) before the platform guard is reached.  On a
platform whose name does not start with linux the script prints its message and
exits with status 0, leaving the output file untouched.  Otherwise the file
is opened for writing (truncating whatever was there), the header is written,
each enumerated address is attempted in order, each success appends one line,
and the footer is written. -/
def ips_main (subnet fileArg dev platform : String) (hostCmd : String → Int)
    (rng : Nat → Fin 256) (initialFile : Option String) : IpsResult :=
  match parseIPv4Network subnet with
  | Except.error e => IpsResult.mk [] (some e) [] initialFile 1
  | Except.ok net =>
    if platformStartsLinux platform then
      IpsResult.mk [] none (ipsLoop hostCmd rng dev (net.addresses.map ipToString) 0)
        (some (ipsHeader ++ fileBody (ipsLoop hostCmd rng dev (net.addresses.map ipToString) 0)
          ++ ipsFooter))
        0
    else
      IpsResult.mk ["Setting virtual interfaces can be done only on Linux"] none []
        initialFile 0

/-- Whether the provisioning attempt with index i for the given address
reports success: generate_dev returned exit status zero. -/
def attemptOk (hostCmd : String → Int) (rng : Nat → Fin 256) (dev : String)
    (i : Nat) (ip : String) : Bool :=
  (generate_dev hostCmd (dev ++ natDec i) ip (hwAt rng i)).2 == 0

/-- The addresses whose lines end up in the output artifact: the enumerated
addresses, paired with their indices, filtered to the successful attempts,
in enumeration order. -/
def writtenAddresses (hostCmd : String → Int) (rng : Nat → Fin 256)
    (dev : String) (ips : List String) : List String :=
  ((ips.enum).filter (fun p => attemptOk hostCmd rng dev p.1 p.2)).map Prod.snd

/-- A host oracle on which every command succeeds. -/
def allOkHost : String → Int := fun _ => 0

/-- A fixed randomness stream. -/
def zeroRng : Nat → Fin 256 := fun _ => 0

/-- Lowercase or uppercase hexadecimal digit. -/
def isHexDigitChar (c : Char) : Bool :=
  c.isDigit || ('a' ≤ c && c ≤ 'f') || ('A' ≤ c && c ≤ 'F')

/-- A two-character string of hexadecimal digits. -/
def isHexOctet (s : String) : Bool :=
  s.data.length == 2 && s.data.all isHexDigitChar

/-- Numeric value of a hexadecimal digit character. -/
def hexCharVal (c : Char) : Nat :=
  if c.isDigit then c.toNat - 48
  else if 'a' ≤ c then c.toNat - 87
  else c.toNat - 55

/-- Numeric value of a string of hexadecimal digits. -/
def hexOctetVal (s : String) : Nat :=
  s.data.foldl (fun a c => 16 * a + hexCharVal c) 0

/-- Outcome of one RPC request issued by get_account_info: a response whose
status is success, a response with any other status, a connection error
raised by the transport (the only exception the script catches), or any
other exception. -/
inductive ReqOutcome where
  | success (result : String)
  | failure
  | connectError
  | otherError (e : String)
  deriving DecidableEq

/-- get_account_info from account_info.py: returns ok true when the response
status is success, ok false when the response has any other status or when
the request raised a connection error (caught and reported), and propagates
any other exception (modelled as error). -/
def get_account_info (o : ReqOutcome) : Except String Bool :=
  match o with
  | ReqOutcome.success _ => Except.ok true
  | ReqOutcome.failure => Except.ok false
  | ReqOutcome.connectError => Except.ok false
  | ReqOutcome.otherError e => Except.error e

/-- How one polling loop of account_info.py ends: success at some attempt
index after some number of one-second sleeps, an uncaught exception at some
attempt index, or fuel exhausted (the source loop would still be running). -/
inductive PollResult where
  | succeeded (attempt sleeps : Nat)
  | raised (e : String) (attempt sleeps : Nat)
  | fuelOut
  deriving DecidableEq

/-- The polling loop of account_info.py: while not get_account_info(acct),
sleep one second and retry.  The oracle gives the outcome of the k-th
request; fuel bounds the number of iterations modelled. -/
def pollLoop (outcomes : Nat → ReqOutcome) : Nat → Nat → Nat → PollResult
  | 0, _, _ => PollResult.fuelOut
  | fuel + 1, k, s =>
    match get_account_info (outcomes k) with
    | Except.error e => PollResult.raised e k s
    | Except.ok true => PollResult.succeeded k s
    | Except.ok false => pollLoop outcomes fuel (k + 1) (s + 1)

/-- The shell chain reports status zero exactly when every command in the
chain reports status zero. -/
theorem runChain_status_zero (hostCmd : String → Int) :
    ∀ cmds : List String, (runChain hostCmd cmds).2 = 0 ↔ ∀ c ∈ cmds, hostCmd c = 0 := by
  intro cmds
  induction cmds with
  | nil => simp [runChain]
  | cons c rest ih =>
    by_cases h : hostCmd c = 0
    · simp [runChain, h, ih]
    · simp [runChain, h]

/-- The commands a chain executes are an initial segment of the chain: the
shell never runs anything outside the chain and never repeats a command. -/
theorem runChain_executed (hostCmd : String → Int) :
    ∀ cmds : List String, ∃ t, (runChain hostCmd cmds).1 ++ t = cmds := by
  intro cmds
  induction cmds with
  | nil => exact ⟨[], rfl⟩
  | cons c rest ih =>
    by_cases h : hostCmd c = 0
    · obtain ⟨t, ht⟩ := ih
      exact ⟨t, by simp [runChain, h, ht]⟩
    · exact ⟨rest, by simp [runChain, h]⟩

/-- The provisioning loop performs exactly one attempt per enumerated
address, whatever the host reports. -/
theorem ipsLoop_length (hostCmd : String → Int) (rng : Nat → Fin 256) (dev : String) :
    ∀ (ips : List String) (i : Nat), (ipsLoop hostCmd rng dev ips i).length = ips.length := by
  intro ips
  induction ips with
  | nil => intro i; rfl
  | cons ip rest ih => intro i; simp [ipsLoop, ih]

/-- The device names used by the loop are the prefix followed by the decimal
index, one per address, with the index advancing by one per address no matter
how the attempts turn out. -/
theorem ipsLoop_map_device (hostCmd : String → Int) (rng : Nat → Fin 256) (dev : String) :
    ∀ (ips : List String) (i : Nat),
      (ipsLoop hostCmd rng dev ips i).map Attempt.device
        = (List.range ips.length).map (fun k => dev ++ natDec (i + k)) := by
  intro ips
  induction ips with
  | nil => intro i; rfl
  | cons ip rest ih =>
    intro i
    simp only [ipsLoop, List.map_cons, ih (i + 1), List.length_cons,
      List.range_succ_eq_map, List.map_map, List.cons.injEq]
    refine ⟨rfl, List.map_congr_left (fun a _ => ?_)⟩
    show dev ++ natDec (i + 1 + a) = dev ++ natDec (i + Nat.succ a)
    have harith : i + 1 + a = i + Nat.succ a := by omega
    rw [harith]

/-- The body the loop writes between header and footer is the concatenation,
in enumeration order, of one quoted comma-terminated line per successful
attempt. -/
theorem ipsLoop_fileBody (hostCmd : String → Int) (rng : Nat → Fin 256) (dev : String) :
    ∀ (ips : List String) (i : Nat),
      fileBody (ipsLoop hostCmd rng dev ips i)
        = concatStrings (((ips.enumFrom i).filter
            (fun p => attemptOk hostCmd rng dev p.1 p.2)).map (fun p => quoteLine p.2)) := by
  intro ips
  induction ips with
  | nil => intro i; rfl
  | cons ip rest ih =>
    intro i
    by_cases h : attemptOk hostCmd rng dev i ip
    · have h0 : (generate_dev hostCmd (dev ++ natDec i) ip (hwAt rng i)).2 = 0 := by
        simpa [attemptOk] using h
      simp [ipsLoop, fileBody, List.enumFrom, h, h0, ih (i + 1), concatStrings, mkAttempt]
    · have hs : ((mkAttempt hostCmd rng dev i ip).status == 0) = false := by
        simpa [attemptOk, mkAttempt] using h
      simp [ipsLoop, fileBody, List.enumFrom, h, hs, ih (i + 1), concatStrings,
        String.empty_append]

/-- Over the whole fuel range, natDecAux produces decimal digits whose value
is the input again: natDec is the decimal rendering of the number. -/
theorem natDecAux_digits : ∀ fuel n : Nat, n < 10 ^ fuel →
    (natDecAux fuel n).all Char.isDigit = true ∧ digitsVal (natDecAux fuel n) = n := by
  intro fuel
  induction fuel with
  | zero =>
    intro n hn
    interval_cases n
    exact ⟨rfl, rfl⟩
  | succ fuel ih =>
    intro n hn
    by_cases h : n < 10
    · simp only [natDecAux, if_pos h]
      interval_cases n <;> exact ⟨by decide, by decide⟩
    · simp only [natDecAux, if_neg h]
      have hdiv : n / 10 < 10 ^ fuel := by
        have hp : n < 10 ^ fuel * 10 := by
          have : (10 : Nat) ^ (fuel + 1) = 10 ^ fuel * 10 := pow_succ 10 fuel
          omega
        omega
      obtain ⟨hall, hval⟩ := ih (n / 10) hdiv
      have hm : n % 10 < 10 := Nat.mod_lt _ (by norm_num)
      have hchar : (Char.ofNat (48 + n % 10)).isDigit = true ∧
          (Char.ofNat (48 + n % 10)).toNat = 48 + n % 10 := by
        set m := n % 10 with hmdef
        interval_cases m <;> exact ⟨by decide, by decide⟩
      constructor
      · rw [List.all_append, hall]
        simpa using hchar.1
      · have : digitsVal (natDecAux fuel (n / 10) ++ [Char.ofNat (48 + n % 10)])
            = digitsVal (natDecAux fuel (n / 10)) * 10
              + ((Char.ofNat (48 + n % 10)).toNat - 48) := by
          simp [digitsVal, List.foldl_append]
        rw [this, hval, hchar.2]
        omega

/-- natDec renders every number below 10^10 (hence every number in this
development) as its decimal digit string. -/
theorem natDec_decimal (n : Nat) (h : n < 10 ^ 10) :
    (natDec n).data.all Char.isDigit = true ∧ digitsVal (natDec n).data = n :=
  natDecAux_digits 10 n h

/-- A successful Except bind means both stages succeeded. -/
theorem exceptBind_ok {α β γ : Type} (x : Except α β) (f : β → Except α γ) (c : γ)
    (h : (x >>= f) = Except.ok c) : ∃ b, x = Except.ok b ∧ f b = Except.ok c := by
  cases x with
  | error e => simp [Bind.bind, Except.bind] at h
  | ok b => exact ⟨b, rfl, by simpa [Bind.bind, Except.bind] using h⟩

/-- A parsed octet is at most 255. -/
theorem parseOctet_le {cs : List Char} {n : Nat} (h : parseOctet cs = Except.ok n) :
    n ≤ 255 := by
  unfold parseOctet at h
  split_ifs at h with h1 h2 h3 h4 <;>
    first
      | exact Except.noConfusion h
      | (injection h with h'; omega)

/-- A parsed prefix length is at most 32: in the digit form because of the
explicit bound, in the netmask and hostmask forms because the pattern search
ranges over the thirty-three possible prefix lengths. -/
theorem parsePrefixLen_le {cs : List Char} {n : Nat}
    (h : parsePrefixLen cs = Except.ok n) : n ≤ 32 := by
  unfold parsePrefixLen at h
  split at h
  · split at h
    · injection h with h'
      omega
    · exact Except.noConfusion h
  · split at h
    · exact Except.noConfusion h
    · split at h
      · rename_i l hfind
        injection h with h'
        have hmem := List.mem_range.mp (List.mem_of_find?_eq_some hfind)
        omega
      · split at h
        · rename_i l hfind
          injection h with h'
          have hmem := List.mem_range.mp (List.mem_of_find?_eq_some hfind)
          omega
        · exact Except.noConfusion h

/-- A parsed dotted quad is below 2^32. -/
theorem parseIPv4Address_lt {cs : List Char} {n : Nat}
    (h : parseIPv4Address cs = Except.ok n) : n < 4294967296 := by
  unfold parseIPv4Address at h
  split at h
  · rename_i a b c d heq
    obtain ⟨va, ha, h⟩ := exceptBind_ok _ _ _ h
    obtain ⟨vb, hb, h⟩ := exceptBind_ok _ _ _ h
    obtain ⟨vc, hc, h⟩ := exceptBind_ok _ _ _ h
    obtain ⟨vd, hd, h⟩ := exceptBind_ok _ _ _ h
    injection h with h'
    have la := parseOctet_le ha
    have lb := parseOctet_le hb
    have lc := parseOctet_le hc
    have ld := parseOctet_le hd
    omega
  · exact Except.noConfusion h

/-- Every parsed network has its address below 2^32, its prefix length at most
32, and its host bits zero. -/
theorem parseIPv4Network_inv {s : String} {net : IPv4Network}
    (h : parseIPv4Network s = Except.ok net) :
    net.networkAddress < 4294967296 ∧ net.prefixlen ≤ 32
      ∧ net.networkAddress % 2 ^ (32 - net.prefixlen) = 0 := by
  unfold parseIPv4Network at h
  split at h
  · rename_i a heq1
    cases ha : parseIPv4Address a with
    | error e => rw [ha] at h; exact Except.noConfusion h
    | ok v =>
      rw [ha] at h
      simp only [Except.map] at h
      injection h with h'
      subst h'
      refine ⟨parseIPv4Address_lt ha, by norm_num, ?_⟩
      show v % 2 ^ (32 - 32) = 0
      exact Nat.mod_one v
  · rename_i a p heq2
    obtain ⟨v, hv, h⟩ := exceptBind_ok _ _ _ h
    obtain ⟨l, hl, h⟩ := exceptBind_ok _ _ _ h
    split_ifs at h with hz
    all_goals
      first
        | exact Except.noConfusion h
        | (injection h with h'; subst h';
           exact ⟨parseIPv4Address_lt hv, parsePrefixLen_le hl, hz⟩)
  · exact Except.noConfusion h

/-- An IPv4Network enumerates exactly 2 to the number of host bits many
addresses. -/
theorem addresses_length (net : IPv4Network) :
    net.addresses.length = 2 ^ (32 - net.prefixlen) := by
  simp [IPv4Network.addresses]

/-- The enumerated addresses are in strictly ascending numeric order. -/
theorem addresses_pairwise (net : IPv4Network) :
    List.Pairwise (· < ·) net.addresses := by
  unfold IPv4Network.addresses
  exact (List.pairwise_lt_range _).map _ (fun a b hab => by omega)

/-- The enumerated addresses contain no duplicates. -/
theorem addresses_nodup (net : IPv4Network) : net.addresses.Nodup :=
  List.Pairwise.imp (fun h => Nat.ne_of_lt h) (addresses_pairwise net)

/-- For a parsed network, every enumerated address stays below 2^32. -/
theorem addresses_lt {s : String} {net : IPv4Network}
    (h : parseIPv4Network s = Except.ok net) :
    ∀ a ∈ net.addresses, a < 4294967296 := by
  obtain ⟨hlt, hL, hz⟩ := parseIPv4Network_inv h
  intro a ha
  unfold IPv4Network.addresses at ha
  rw [List.mem_map] at ha
  obtain ⟨k, hk, rfl⟩ := ha
  rw [List.mem_range] at hk
  obtain ⟨q, hq⟩ := Nat.dvd_of_mod_eq_zero hz
  have hdvd : 2 ^ (32 - net.prefixlen) ∣ 4294967296 := by
    have h32 : (4294967296 : Nat) = 2 ^ 32 := by norm_num
    rw [h32]
    exact pow_dvd_pow 2 (by omega)
  obtain ⟨w, hw⟩ := hdvd
  have hqw : q + 1 ≤ w := by
    by_contra hc
    push_neg at hc
    have : 2 ^ (32 - net.prefixlen) * w ≤ 2 ^ (32 - net.prefixlen) * q :=
      Nat.mul_le_mul le_rfl (by omega)
    omega
  have hstep : 2 ^ (32 - net.prefixlen) * (q + 1) ≤ 2 ^ (32 - net.prefixlen) * w :=
    Nat.mul_le_mul le_rfl hqw
  have hqq : net.networkAddress + 2 ^ (32 - net.prefixlen)
      = 2 ^ (32 - net.prefixlen) * (q + 1) := by
    rw [hq]; ring
  omega

/-- One run of ips.py on a Linux-like platform with a well-formed subnet:
the loop runs over the enumerated addresses and the file receives header,
body and footer. -/
theorem ips_main_linux (subnet fileArg dev platform : String) (hostCmd : String → Int)
    (rng : Nat → Fin 256) (init : Option String) (net : IPv4Network)
    (hparse : parseIPv4Network subnet = Except.ok net)
    (hplat : platformStartsLinux platform = true) :
    ips_main subnet fileArg dev platform hostCmd rng init
      = IpsResult.mk [] none (ipsLoop hostCmd rng dev (net.addresses.map ipToString) 0)
          (some (ipsHeader
            ++ fileBody (ipsLoop hostCmd rng dev (net.addresses.map ipToString) 0)
            ++ ipsFooter))
          0 := by
  unfold ips_main
  rw [hparse, hplat]
  simp

/-- The body written by the loop is one quoted line per successful attempt,
in order; failed attempts contribute nothing. -/
theorem fileBody_filter (as : List Attempt) :
    fileBody as
      = concatStrings ((as.filter (fun a => a.status == 0)).map
          (fun a => quoteLine a.address)) := by
  induction as with
  | nil => rfl
  | cons a rest ih =>
    by_cases h : a.status == 0
    · simp [fileBody, List.filter, h, concatStrings, ih]
    · simp [fileBody, List.filter, h, concatStrings, ih, String.empty_append]

/-- The body written by the loop started at index zero is the concatenation
of the quoted lines of exactly the written addresses. -/
theorem fileBody_eq_written (hostCmd : String → Int) (rng : Nat → Fin 256)
    (dev : String) (ips : List String) :
    fileBody (ipsLoop hostCmd rng dev ips 0)
      = concatStrings ((writtenAddresses hostCmd rng dev ips).map quoteLine) := by
  rw [ipsLoop_fileBody]
  simp [writtenAddresses, List.map_map, List.enum, Function.comp_def]

/-- After k iterations that returned false, the polling loop inspects the
k-th outcome with the attempt counter and the sleep count both advanced by
k. -/
theorem pollLoop_run (outcomes : Nat → ReqOutcome) :
    ∀ k start s : Nat,
      (∀ j, j < k → get_account_info (outcomes (start + j)) = Except.ok false) →
      pollLoop outcomes (k + 1) start s
        = match get_account_info (outcomes (start + k)) with
          | Except.error e => PollResult.raised e (start + k) (s + k)
          | Except.ok true => PollResult.succeeded (start + k) (s + k)
          | Except.ok false => PollResult.fuelOut := by
  intro k
  induction k with
  | zero =>
    intro start s _
    cases ho : get_account_info (outcomes start) with
    | error e => simp [pollLoop, ho]
    | ok b => cases b <;> simp [pollLoop, ho]
  | succ k ih =>
    intro start s h
    have h0 : get_account_info (outcomes start) = Except.ok false := by
      have hh := h 0 (by omega)
      simpa using hh
    show pollLoop outcomes (k + 1 + 1) start s = _
    rw [show pollLoop outcomes (k + 1 + 1) start s
        = pollLoop outcomes (k + 1) (start + 1) (s + 1) from by
      simp [pollLoop, h0]]
    rw [ih (start + 1) (s + 1) (fun j hj => by
      have hh := h (j + 1) (by omega)
      have e0 : start + 1 + j = start + (j + 1) := by omega
      rw [e0]
      exact hh)]
    have e1 : start + 1 + k = start + (k + 1) := by omega
    have e2 : s + 1 + k = s + (k + 1) := by omega
    rw [e1, e2]

/-- Claim C1, counterexample: on a non-Linux platform with a malformed
subnet argument the script does not print the explanatory message and does
not exit with status 0: the subnet is parsed before the platform guard, so
the run dies with the parse error (exit status 1). -/
theorem claim1_counterexample :
    ¬ ((ips_main ("garbage") ("ips.rs") ("test_eth") ("darwin") allOkHost zeroRng
          none).exitCode = 0
        ∧ (ips_main ("garbage") ("ips.rs") ("test_eth") ("darwin") allOkHost zeroRng
            none).printed
          = [("Setting virtual interfaces can be done only on Linux")]) := by
  decide

/-- Claim C1, amended: for every input whose subnet argument is a well-formed
subnet specification (and every file and device-prefix argument), when the
host platform is not Linux-like the script performs no host mutation, leaves
the output file untouched, prints the explanatory message, and exits with
status 0; with a malformed subnet the run instead stops at the parse error. -/
theorem claim1_amended (subnet fileArg dev platform : String) (hostCmd : String → Int)
    (rng : Nat → Fin 256) (init : Option String) (net : IPv4Network)
    (hparse : parseIPv4Network subnet = Except.ok net)
    (hplat : platformStartsLinux platform = false) :
    (ips_main subnet fileArg dev platform hostCmd rng init).attempts = []
    ∧ (ips_main subnet fileArg dev platform hostCmd rng init).file = init
    ∧ (ips_main subnet fileArg dev platform hostCmd rng init).printed
        = [("Setting virtual interfaces can be done only on Linux")]
    ∧ (ips_main subnet fileArg dev platform hostCmd rng init).exitCode = 0 := by
  unfold ips_main
  rw [hparse, hplat]
  simp

/-- Witness for the amended claim C1 at a concrete non-Linux run. -/
theorem claim1_amended_witness :
    (ips_main ("1.1.1.0/28") ("ips.rs") ("test_eth") ("darwin") allOkHost zeroRng
        none).attempts = []
    ∧ (ips_main ("1.1.1.0/28") ("ips.rs") ("test_eth") ("darwin") allOkHost zeroRng
        none).file = none
    ∧ (ips_main ("1.1.1.0/28") ("ips.rs") ("test_eth") ("darwin") allOkHost zeroRng
        none).printed = [("Setting virtual interfaces can be done only on Linux")]
    ∧ (ips_main ("1.1.1.0/28") ("ips.rs") ("test_eth") ("darwin") allOkHost zeroRng
        none).exitCode = 0 :=
  claim1_amended ("1.1.1.0/28") ("ips.rs") ("test_eth") ("darwin") allOkHost zeroRng
    none (IPv4Network.mk 16843008 28) (by decide) (by decide)

/-- Claim C8: for every malformed subnet specification the script stops at
the invalid-input error, with the error recorded, no provisioning attempt
performed, the output file untouched, and a nonzero exit status. -/
theorem claim8_invalid_input (subnet fileArg dev platform : String)
    (hostCmd : String → Int) (rng : Nat → Fin 256) (init : Option String) (e : String)
    (hparse : parseIPv4Network subnet = Except.error e) :
    (ips_main subnet fileArg dev platform hostCmd rng init).err = some e
    ∧ (ips_main subnet fileArg dev platform hostCmd rng init).attempts = []
    ∧ (ips_main subnet fileArg dev platform hostCmd rng init).file = init
    ∧ (ips_main subnet fileArg dev platform hostCmd rng init).exitCode = 1 := by
  unfold ips_main
  rw [hparse]
  simp

/-- Witness for claim C8 at a concrete malformed subnet (host bits set). -/
theorem claim8_witness :
    (ips_main ("1.1.1.1/28") ("ips.rs") ("test_eth") ("linux") allOkHost zeroRng
        none).err = some ("network has host bits set")
    ∧ (ips_main ("1.1.1.1/28") ("ips.rs") ("test_eth") ("linux") allOkHost zeroRng
        none).attempts = []
    ∧ (ips_main ("1.1.1.1/28") ("ips.rs") ("test_eth") ("linux") allOkHost zeroRng
        none).file = none
    ∧ (ips_main ("1.1.1.1/28") ("ips.rs") ("test_eth") ("linux") allOkHost zeroRng
        none).exitCode = 1 :=
  claim8_invalid_input ("1.1.1.1/28") ("ips.rs") ("test_eth") ("linux") allOkHost
    zeroRng none ("network has host bits set") (by decide)

/-- Claim C3: every parsed network enumerates exactly 2 to the number of
host bits many addresses, strictly ascending, without duplicates, all below
2^32; and the default input 1.1.1.0/28 enumerates exactly the sixteen
addresses 1.1.1.0 through 1.1.1.15 in that order. -/
theorem claim3_enumeration (subnet : String) (net : IPv4Network)
    (hparse : parseIPv4Network subnet = Except.ok net) :
    net.addresses.length = 2 ^ (32 - net.prefixlen)
    ∧ List.Pairwise (fun a b => a < b) net.addresses
    ∧ net.addresses.Nodup
    ∧ (∀ a ∈ net.addresses, a < 4294967296)
    ∧ parseIPv4Network ("1.1.1.0/28") = Except.ok (IPv4Network.mk 16843008 28)
    ∧ (IPv4Network.mk 16843008 28).addresses.length = 16
    ∧ (IPv4Network.mk 16843008 28).addresses.map ipToString
        = [("1.1.1.0"), ("1.1.1.1"), ("1.1.1.2"), ("1.1.1.3"), ("1.1.1.4"), ("1.1.1.5"),
           ("1.1.1.6"), ("1.1.1.7"), ("1.1.1.8"), ("1.1.1.9"), ("1.1.1.10"), ("1.1.1.11"),
           ("1.1.1.12"), ("1.1.1.13"), ("1.1.1.14"), ("1.1.1.15")] :=
  ⟨addresses_length net, addresses_pairwise net, addresses_nodup net, addresses_lt hparse,
    by decide, by decide, by decide⟩

/-- Witness for claim C3 at the default subnet. -/
theorem claim3_witness :
    (IPv4Network.mk 16843008 28).addresses.length = 2 ^ (32 - (IPv4Network.mk 16843008 28).prefixlen) :=
  (claim3_enumeration ("1.1.1.0/28") (IPv4Network.mk 16843008 28) (by decide)).1

/-- Claim C2: for every subnet input and every host outcome, the written
address list is an order-preserving subsequence of the enumerated list, the
output artifact contains exactly the quoted lines of those addresses between
header and footer, and an enumerated address is written exactly when its
provisioning attempt reported success. -/
theorem claim2_subsequence (subnet fileArg dev platform : String)
    (hostCmd : String → Int) (rng : Nat → Fin 256) (init : Option String)
    (net : IPv4Network)
    (hparse : parseIPv4Network subnet = Except.ok net)
    (hplat : platformStartsLinux platform = true) :
    (writtenAddresses hostCmd rng dev (net.addresses.map ipToString)).Sublist
        (net.addresses.map ipToString)
    ∧ (ips_main subnet fileArg dev platform hostCmd rng init).file
        = some (ipsHeader
            ++ concatStrings
                ((writtenAddresses hostCmd rng dev (net.addresses.map ipToString)).map
                  quoteLine)
            ++ ipsFooter)
    ∧ ∀ p ∈ (net.addresses.map ipToString).enum,
        (p ∈ ((net.addresses.map ipToString).enum.filter
            (fun q => attemptOk hostCmd rng dev q.1 q.2))
          ↔ attemptOk hostCmd rng dev p.1 p.2 = true) := by
  refine ⟨?_, ?_, ?_⟩
  · have h1 : ((net.addresses.map ipToString).enum.filter
        (fun p => attemptOk hostCmd rng dev p.1 p.2)).Sublist
          (net.addresses.map ipToString).enum :=
      List.filter_sublist _
    have h2 := h1.map Prod.snd
    rw [List.enum_map_snd] at h2
    exact h2
  · rw [ips_main_linux subnet fileArg dev platform hostCmd rng init net hparse hplat]
    rw [fileBody_eq_written hostCmd rng dev (net.addresses.map ipToString)]
  · intro p hp
    exact ⟨fun hmem => (List.mem_filter.mp hmem).2,
      fun hok => List.mem_filter.mpr ⟨hp, hok⟩⟩

/-- Witness for claim C2 at the default subnet with an all-success host. -/
theorem claim2_witness :
    (writtenAddresses allOkHost zeroRng ("test_eth")
        ((IPv4Network.mk 16843008 28).addresses.map ipToString)).Sublist
      ((IPv4Network.mk 16843008 28).addresses.map ipToString) :=
  (claim2_subsequence ("1.1.1.0/28") ("ips.rs") ("test_eth") ("linux") allOkHost zeroRng
    none (IPv4Network.mk 16843008 28) (by decide) (by decide)).1

/-- Claim C4: a provisioning attempt reports success exactly when all four
chained host operations exit with status zero; the commands executed never
leave the chain (no rollback, no retry); and on a Linux run the loop still
performs one attempt per enumerated address, with only the successful
attempts contributing their line to the artifact body. -/
theorem claim4_attempt (hostCmd : String → Int) (device_name ip_addr hw : String)
    (subnet fileArg dev platform : String) (rng : Nat → Fin 256) (init : Option String)
    (net : IPv4Network)
    (hparse : parseIPv4Network subnet = Except.ok net)
    (hplat : platformStartsLinux platform = true) :
    ((generate_dev hostCmd device_name ip_addr hw).2 = 0
      ↔ (hostCmd (ipLinkAddCmd device_name) = 0
          ∧ hostCmd (ifconfigHwCmd device_name hw) = 0
          ∧ hostCmd (ipAddrAddCmd ip_addr device_name) = 0
          ∧ hostCmd (ipLinkUpCmd device_name) = 0))
    ∧ (∃ t, (generate_dev hostCmd device_name ip_addr hw).1 ++ t
          = devChain device_name ip_addr hw)
    ∧ (ips_main subnet fileArg dev platform hostCmd rng init).attempts.length
        = net.addresses.length
    ∧ fileBody ((ips_main subnet fileArg dev platform hostCmd rng init).attempts)
        = concatStrings
            ((((ips_main subnet fileArg dev platform hostCmd rng init).attempts.filter
                (fun a => a.status == 0)).map (fun a => quoteLine a.address))) := by
  refine ⟨?_, runChain_executed hostCmd _, ?_, ?_⟩
  · rw [show generate_dev hostCmd device_name ip_addr hw
        = runChain hostCmd (devChain device_name ip_addr hw) from rfl,
      runChain_status_zero hostCmd (devChain device_name ip_addr hw)]
    simp [devChain]
  · rw [ips_main_linux subnet fileArg dev platform hostCmd rng init net hparse hplat]
    show (ipsLoop hostCmd rng dev (net.addresses.map ipToString) 0).length = _
    rw [ipsLoop_length]
    simp
  · rw [ips_main_linux subnet fileArg dev platform hostCmd rng init net hparse hplat]
    exact fileBody_filter _

/-- Witness for claim C4 at a concrete chain and run. -/
theorem claim4_witness :
    (ips_main ("1.1.1.0/28") ("ips.rs") ("test_eth") ("linux") allOkHost zeroRng
        none).attempts.length = (IPv4Network.mk 16843008 28).addresses.length :=
  (claim4_attempt allOkHost ("test_eth0") ("1.1.1.0") ("02:00:00:00:00:00")
    ("1.1.1.0/28") ("ips.rs") ("test_eth") ("linux") zeroRng none
    (IPv4Network.mk 16843008 28) (by decide) (by decide)).2.2.1

/-- Claim C5: the device names used by a run are exactly the prefix followed
by the decimal rendering of the zero-based index, one per enumerated address
with no gap or reorder whatever the host reports; and for every index that
occurs, the rendering is the decimal digit string of the index. -/
theorem claim5_device_names (subnet fileArg dev platform : String)
    (hostCmd : String → Int) (rng : Nat → Fin 256) (init : Option String)
    (net : IPv4Network)
    (hparse : parseIPv4Network subnet = Except.ok net)
    (hplat : platformStartsLinux platform = true) :
    ((ips_main subnet fileArg dev platform hostCmd rng init).attempts.map Attempt.device)
      = (List.range (net.addresses.map ipToString).length).map (fun i => dev ++ natDec i)
    ∧ ∀ i, i < (net.addresses.map ipToString).length →
        ((natDec i).data.all Char.isDigit = true ∧ digitsVal (natDec i).data = i) := by
  constructor
  · rw [ips_main_linux subnet fileArg dev platform hostCmd rng init net hparse hplat]
    show (ipsLoop hostCmd rng dev (net.addresses.map ipToString) 0).map Attempt.device = _
    rw [ipsLoop_map_device]
    exact List.map_congr_left (fun a _ => by rw [Nat.zero_add])
  · intro i hi
    apply natDec_decimal
    have hlen : (net.addresses.map ipToString).length = 2 ^ (32 - net.prefixlen) := by
      rw [List.length_map]
      exact addresses_length net
    have hle : (2 : Nat) ^ (32 - net.prefixlen) ≤ 2 ^ 32 :=
      Nat.pow_le_pow_right (by norm_num) (by omega)
    have hlt : (2 : Nat) ^ 32 < 10 ^ 10 := by norm_num
    omega

/-- Witness for claim C5 at the default run. -/
theorem claim5_witness :
    ((ips_main ("1.1.1.0/28") ("ips.rs") ("test_eth") ("linux") allOkHost zeroRng
        none).attempts.map Attempt.device)
      = (List.range ((IPv4Network.mk 16843008 28).addresses.map ipToString).length).map
          (fun i => ("test_eth") ++ natDec i) :=
  (claim5_device_names ("1.1.1.0/28") ("ips.rs") ("test_eth") ("linux") allOkHost
    zeroRng none (IPv4Network.mk 16843008 28) (by decide) (by decide)).1

/-- Claim C7: on a Linux-like host the output file is overwritten whatever
its prior contents were (no append, no backup), and its contents are exactly
the typed constant-declaration header line, one quoted comma-terminated line
per successfully provisioned address, a closing terminator line, and a
trailing blank line. -/
theorem claim7_artifact (subnet fileArg dev platform : String)
    (hostCmd : String → Int) (rng : Nat → Fin 256) (init init2 : Option String)
    (net : IPv4Network)
    (hparse : parseIPv4Network subnet = Except.ok net)
    (hplat : platformStartsLinux platform = true) :
    (ips_main subnet fileArg dev platform hostCmd rng init).file
      = (ips_main subnet fileArg dev platform hostCmd rng init2).file
    ∧ (ips_main subnet fileArg dev platform hostCmd rng init).file
        = some (("pub const IPS: &\x27static [&\x27static str] = &[ \n")
            ++ concatStrings
                ((writtenAddresses hostCmd rng dev (net.addresses.map ipToString)).map
                  (fun ip => ("\t\"") ++ ip ++ ("\",\n")))
            ++ ("];\n") ++ ("\n")) := by
  have hfile : ∀ j : Option String,
      (ips_main subnet fileArg dev platform hostCmd rng j).file
        = some (ipsHeader
            ++ concatStrings
                ((writtenAddresses hostCmd rng dev (net.addresses.map ipToString)).map
                  quoteLine)
            ++ ipsFooter) := by
    intro j
    rw [ips_main_linux subnet fileArg dev platform hostCmd rng j net hparse hplat]
    rw [fileBody_eq_written hostCmd rng dev (net.addresses.map ipToString)]
  have key : ∀ s : String, s ++ ipsFooter = s ++ ("];\n") ++ ("\n") := by
    intro s
    have h2 : ipsFooter = ("];\n") ++ ("\n") := by decide
    rw [h2, ← String.append_assoc]
  constructor
  · rw [hfile init, hfile init2]
  · rw [hfile init]
    exact congrArg some (key _)

/-- Witness for claim C7: the run result does not depend on the prior file
contents. -/
theorem claim7_witness :
    (ips_main ("1.1.1.0/28") ("ips.rs") ("test_eth") ("linux") allOkHost zeroRng
        none).file
      = (ips_main ("1.1.1.0/28") ("ips.rs") ("test_eth") ("linux") allOkHost zeroRng
          (some ("stale contents"))).file :=
  (claim7_artifact ("1.1.1.0/28") ("ips.rs") ("test_eth") ("linux") allOkHost zeroRng
    none (some ("stale contents")) (IPv4Network.mk 16843008 28)
    (by decide) (by decide)).1

set_option maxRecDepth 4000 in
/-- Every two-digit hexadecimal rendering of an octet value is a
two-character hexadecimal string. -/
theorem hex2_hexOctet : ∀ r : Fin 256, isHexOctet (hex2 r.val) = true := by decide

/-- Claim C6: every generated hardware identifier is six colon-separated
two-digit hexadecimal octets, and its first octet is the fixed value 0x02,
whose second-least-significant bit is set (locally administered) and whose
least-significant bit is clear (unicast). -/
theorem claim6_hwaddr (r1 r2 r3 : Fin 256) :
    generate_hwaddr r1 r2 r3
      = ("02") ++ (":") ++ ("00") ++ (":") ++ ("00") ++ (":")
          ++ hex2 r1.val ++ (":") ++ hex2 r2.val ++ (":") ++ hex2 r3.val
    ∧ isHexOctet ("02") = true ∧ isHexOctet ("00") = true
    ∧ isHexOctet (hex2 r1.val) = true ∧ isHexOctet (hex2 r2.val) = true
    ∧ isHexOctet (hex2 r3.val) = true
    ∧ hexOctetVal ("02") = 2
    ∧ Nat.testBit 2 1 = true ∧ Nat.testBit 2 0 = false := by
  refine ⟨?_, by decide, by decide, hex2_hexOctet r1, hex2_hexOctet r2, hex2_hexOctet r3,
    by decide, by decide, by decide⟩
  have hpre : (("02") ++ (":") ++ ("00") ++ (":") ++ ("00") ++ (":") : String)
      = ("02:00:00:") := by decide
  rw [hpre]
  rfl

/-- Claim C9: a connection failure is caught inside get_account_info, which
returns false instead of raising; the loop retries after one sleep per
failed attempt until a request reports success, at which point
get_account_info returns true and the loop stops having slept once per
failed attempt. -/
theorem claim9_retry (outcomes : Nat → ReqOutcome) (k : Nat) (r : String)
    (hfail : ∀ j, j < k → outcomes j = ReqOutcome.connectError)
    (hsucc : outcomes k = ReqOutcome.success r) :
    get_account_info ReqOutcome.connectError = Except.ok false
    ∧ get_account_info (outcomes k) = Except.ok true
    ∧ pollLoop outcomes (k + 1) 0 0 = PollResult.succeeded k k := by
  refine ⟨rfl, by rw [hsucc]; rfl, ?_⟩
  have h := pollLoop_run outcomes k 0 0 (fun j hj => by
    rw [Nat.zero_add, hfail j hj]; rfl)
  simp only [Nat.zero_add] at h
  rw [hsucc] at h
  simpa [get_account_info] using h

/-- Witness for claim C9: two connection failures then a success. -/
theorem claim9_witness :
    pollLoop (fun j => if j < 2 then ReqOutcome.connectError else ReqOutcome.success ("r"))
        (2 + 1) 0 0
      = PollResult.succeeded 2 2 :=
  (claim9_retry
    (fun j => if j < 2 then ReqOutcome.connectError else ReqOutcome.success ("r"))
    2 ("r") (by decide) (by decide)).2.2

/-- Claim C10: get_account_info raises exactly on the outcomes that are
neither a response nor a connection error, and such an exception ends the
polling loop at that attempt instead of being retried. -/
theorem claim10_propagate (outcomes : Nat → ReqOutcome) (k : Nat) (e : String)
    (hfail : ∀ j, j < k → outcomes j = ReqOutcome.connectError)
    (herr : outcomes k = ReqOutcome.otherError e) :
    (∀ (o : ReqOutcome) (err : String),
        get_account_info o = Except.error err ↔ o = ReqOutcome.otherError err)
    ∧ pollLoop outcomes (k + 1) 0 0 = PollResult.raised e k k := by
  constructor
  · intro o err
    cases o <;> simp [get_account_info]
  · have h := pollLoop_run outcomes k 0 0 (fun j hj => by
      rw [Nat.zero_add, hfail j hj]; rfl)
    simp only [Nat.zero_add] at h
    rw [herr] at h
    simpa [get_account_info] using h

/-- Witness for claim C10: one connection failure then a timeout-like
exception, ending the loop. -/
theorem claim10_witness :
    pollLoop (fun j => if j < 1 then ReqOutcome.connectError else ReqOutcome.otherError ("boom"))
        (1 + 1) 0 0
      = PollResult.raised ("boom") 1 1 :=
  (claim10_propagate
    (fun j => if j < 1 then ReqOutcome.connectError else ReqOutcome.otherError ("boom"))
    1 ("boom") (by decide) (by decide)).2
